import Mathlib

/-!
Shallow embedding of `src/components/graphics_engine/src/gl_wrap/shader.rs`
(repository `mempler/pixel`).

The Rust file is a thin wrapper over the native OpenGL API.  The driver's
behaviour is modelled by a `GLCtx` (which sources compile, what a uniform
lookup returns, the content of info logs); the effect of each native call is
recorded in a `GLState` carrying a fresh-handle counter, the per-shader-object
source and compile-status tables, the trace of all native calls made, and the
`log::error!` / `log::warn!` messages emitted.

`Shader::new` recurses through `Shader::check_compilation` (on a compile
failure it builds the hardcoded fallback "error" shader by calling
`Shader::new` again); the embedding makes the recursion structural on a fuel
parameter, with `none` standing for "the Rust code is still recursing"
(divergence), and `some (st, r)` for a terminating run with final GL state
`st` and Rust-level return value `r : Option Shader`.
-/

set_option maxHeartbeats 1600000

namespace Pixel

/-- Opaque model of a `glm::Mat4` value.  The wrapper never inspects the
matrix — it only forwards `val.as_ptr()` to the native call — so the sixteen
`f32` entries are modelled by an opaque payload with decidable equality. -/
structure Mat4 where
  data : List Nat
deriving DecidableEq

/-- Value of `gl::VERTEX_SHADER`. -/
def GL_VERTEX_SHADER : Nat := 0x8B31
/-- Value of `gl::FRAGMENT_SHADER`. -/
def GL_FRAGMENT_SHADER : Nat := 0x8B30
/-- Value of `gl::COMPILE_STATUS`. -/
def GL_COMPILE_STATUS : Nat := 0x8B81
/-- Value of `gl::INFO_LOG_LENGTH`. -/
def GL_INFO_LOG_LENGTH : Nat := 0x8B84

/-- One call into the native GL API, as recorded in the trace. -/
inductive GLCall where
  | createProgram (id : Nat)
  | createShader (shaderType : Nat) (id : Nat)
  | shaderSource (shader : Nat) (src : String)
  | compileShader (shader : Nat)
  | getShaderiv (shader : Nat) (pname : Nat) (result : Int)
  | getShaderInfoLog (shader : Nat) (log : String)
  | deleteShader (shader : Nat)
  | deleteProgram (program : Nat)
  | attachShader (program : Nat) (shader : Nat)
  | linkProgram (program : Nat)
  | getUniformLocation (program : Nat) (name : String) (loc : Int)
  | uniformMatrix4fv (loc : Int) (count : Nat) (transpose : Bool) (value : Mat4)
  | useProgram (program : Nat)
deriving DecidableEq

/-- Behaviour of the native GL driver (everything outside the Rust file):
which source strings compile, the info log attached to a shader object, and
what `glGetUniformLocation` answers (`-1` meaning "name not found"). -/
structure GLCtx where
  compiles : String → Bool
  infoLog : Nat → String
  uniformLoc : Nat → String → Int

/-- The observable state of the native GL side: a fresh-handle counter, the
source last attached to each shader object, each shader object's compile
status, the trace of native calls, and the logged error/warning messages. -/
structure GLState where
  nextId : Nat
  sources : Nat → Option String
  status : Nat → Bool
  trace : List GLCall
  errors : List String
  warnings : List String

/-- The initial GL state: handles are issued from 1 (a conforming context
issues non-zero names). -/
def st0 : GLState :=
  { nextId := 1, sources := fun _ => none, status := fun _ => false,
    trace := [], errors := [], warnings := [] }

/-- Append one native call to the trace. -/
def record (c : GLCall) (st : GLState) : GLState :=
  { st with trace := st.trace ++ [c] }

/-- Model of `gl::CreateProgram()` — issues a fresh program handle. -/
def glCreateProgram (st : GLState) : Nat × GLState :=
  (st.nextId, { st with nextId := st.nextId + 1,
                        trace := st.trace ++ [.createProgram st.nextId] })

/-- Model of `gl::CreateShader(ty)` — issues a fresh shader-object handle. -/
def glCreateShader (shaderType : Nat) (st : GLState) : Nat × GLState :=
  (st.nextId, { st with nextId := st.nextId + 1,
                        trace := st.trace ++ [.createShader shaderType st.nextId] })

/-- Model of `gl::ShaderSource(shader, 1, &ptr, &len)` — attaches the source string. -/
def glShaderSource (shader : Nat) (src : String) (st : GLState) : GLState :=
  { st with sources := fun i => if i = shader then some src else st.sources i,
            trace := st.trace ++ [.shaderSource shader src] }

/-- Model of `gl::CompileShader(shader)` — the driver decides success from the
attached source. -/
def glCompileShader (ctx : GLCtx) (shader : Nat) (st : GLState) : GLState :=
  { st with
      status := fun i =>
        if i = shader then ctx.compiles ((st.sources shader).getD ("")) else st.status i,
      trace := st.trace ++ [.compileShader shader] }

/-- Model of `gl::GetShaderiv(shader, pname, &out)` for the two parameters the Rust
code queries: compile status and info-log length. -/
def glGetShaderiv (ctx : GLCtx) (shader pname : Nat) (st : GLState) : Int × GLState :=
  let v : Int :=
    if pname = GL_COMPILE_STATUS then (if st.status shader then 1 else 0)
    else if pname = GL_INFO_LOG_LENGTH then ((ctx.infoLog shader).length + 1)
    else 0
  (v, record (.getShaderiv shader pname v) st)

/-- Model of `gl::GetShaderInfoLog(shader, max_len, &max_len, buf)` — the driver fills
the buffer with the log (which fits the queried length). -/
def glGetShaderInfoLog (ctx : GLCtx) (shader : Nat) (_maxLen : Int) (st : GLState) :
    String × GLState :=
  (ctx.infoLog shader, record (.getShaderInfoLog shader (ctx.infoLog shader)) st)

/-- Model of `gl::DeleteShader(shader)`. -/
def glDeleteShader (shader : Nat) (st : GLState) : GLState :=
  record (.deleteShader shader) st

/-- Model of `gl::DeleteProgram(program)`. -/
def glDeleteProgram (program : Nat) (st : GLState) : GLState :=
  record (.deleteProgram program) st

/-- Model of `gl::AttachShader(program, shader)`. -/
def glAttachShader (program shader : Nat) (st : GLState) : GLState :=
  record (.attachShader program shader) st

/-- Model of `gl::LinkProgram(program)`. -/
def glLinkProgram (program : Nat) (st : GLState) : GLState :=
  record (.linkProgram program) st

/-- Model of `gl::GetUniformLocation(program, name)` — answered by the driver model. -/
def glGetUniformLocation (ctx : GLCtx) (program : Nat) (name : String) (st : GLState) :
    Int × GLState :=
  (ctx.uniformLoc program name,
   record (.getUniformLocation program name (ctx.uniformLoc program name)) st)

/-- Model of `gl::UniformMatrix4fv(loc, 1, gl::FALSE, val.as_ptr())`. -/
def glUniformMatrix4fv (loc : Int) (val : Mat4) (st : GLState) : GLState :=
  record (.uniformMatrix4fv loc 1 false val) st

/-- Model of `gl::UseProgram(program)`. -/
def glUseProgram (program : Nat) (st : GLState) : GLState :=
  record (.useProgram program) st

/-- Model of `log::error!(...)`. -/
def logError (msg : String) (st : GLState) : GLState :=
  { st with errors := st.errors ++ [msg] }

/-- Model of `log::warn!(...)`. -/
def logWarn (msg : String) (st : GLState) : GLState :=
  { st with warnings := st.warnings ++ [msg] }

/-- Embeds `pub struct Shader` with its one field `program: u32`. -/
structure Shader where
  program : Nat
deriving DecidableEq

/-- The hardcoded fallback fragment source `SHADER_ERR_SRC_FRAG`
(magenta/black checkerboard), copied verbatim from the Rust file. -/
def SHADER_ERR_SRC_FRAG : String := "
#version 110

varying vec2 TexPos;

// Yoinked from: https://github.com/mattdesl/glsl-checker

float checker(vec2 uv, float repeats)
\x7b
  float cx = floor(repeats * uv.x);
  float cy = floor(repeats * uv.y);
  float result = mod(cx + cy, 2.0);

  return sign(result);
\x7d

void main()
\x7b
    gl_FragColor = mix(vec4(1.0, 0.0, 1.0, 1.0), vec4(0.0, 0.0, 0.0, 1.0), checker(TexPos.xy, 15.0));
\x7d
"

/-- The hardcoded fallback vertex source `SHADER_ERR_SRC_VERT`, copied
verbatim from the Rust file. -/
def SHADER_ERR_SRC_VERT : String := "
#version 110
attribute vec3 iPos;
attribute vec2 iTexPos;

varying vec2 TexPos;

uniform mat4 iMVP;

void main()
\x7b
    gl_Position = iMVP * vec4( iPos.xyz, 1.0 );
    TexPos = iTexPos;
\x7d
"

/-- Embeds `Shader::check_compilation(name, shader)`.  Reads the compile status; on
failure it queries and logs the info log (`log::error!`), deletes the shader
object and returns the result of `Shader::new(SHADER_ERR_SRC_FRAG,
SHADER_ERR_SRC_VERT)` — passed in here as `recurse`, so that `Shader.new`
below is structurally recursive on its fuel.  Returning `some (st, none)`
corresponds to the Rust function returning `None` (compilation succeeded);
outer `none` means the recursion exhausted its fuel. -/
def Shader.check_compilation (recurse : GLState → Option (GLState × Option Shader))
    (ctx : GLCtx) (name : String) (shader : Nat) (st : GLState) :
    Option (GLState × Option Shader) :=
  let (is_compiled_i, st) := glGetShaderiv ctx shader GL_COMPILE_STATUS st
  let is_compiled := is_compiled_i != 0
  if !is_compiled then
    let (max_len, st) := glGetShaderiv ctx shader GL_INFO_LOG_LENGTH st
    let (error_log, st) := glGetShaderInfoLog ctx shader max_len st
    let st := logError ("Failed to compile " ++ name ++ " shader " ++ error_log) st
    let st := glDeleteShader shader st
    recurse st
  else
    some (st, none)

/-- Embeds `Shader::new(frag, vert)`.  The fuel bounds the recursion depth through
`check_compilation`; `none` means the fuel ran out, i.e. the Rust code would
still be recursing.  Note the `if let Some(val) = check_compilation(..)`
structure: a `None` from `check_compilation` falls through to the next
statement of the function. -/
def Shader.new : Nat → GLCtx → String → String → GLState → Option (GLState × Option Shader)
  | 0, _, _, _, _ => none
  | fuel + 1, ctx, frag, vert, st =>
    let (program, st) := glCreateProgram st
    let (vert_shader, st) := glCreateShader GL_VERTEX_SHADER st
    let (frag_shader, st) := glCreateShader GL_FRAGMENT_SHADER st
    let st := glShaderSource vert_shader vert st
    let st := glShaderSource frag_shader frag st
    let st := glCompileShader ctx vert_shader st
    match Shader.check_compilation
        (Shader.new fuel ctx SHADER_ERR_SRC_FRAG SHADER_ERR_SRC_VERT)
        ctx ("vert") vert_shader st with
    | none => none
    | some (st, some val) =>
      let st := glDeleteProgram program st
      some (st, some val)
    | some (st, none) =>
      let st := glCompileShader ctx frag_shader st
      match Shader.check_compilation
          (Shader.new fuel ctx SHADER_ERR_SRC_FRAG SHADER_ERR_SRC_VERT)
          ctx ("frag") frag_shader st with
      | none => none
      | some (st, some val) =>
        let st := glDeleteProgram program st
        some (st, some val)
      | some (st, none) =>
        let st := glAttachShader program vert_shader st
        let st := glAttachShader program frag_shader st
        let st := glLinkProgram program st
        let st := glDeleteShader vert_shader st
        let st := glDeleteShader frag_shader st
        some (st, some ⟨program⟩)

/-- Embeds `Shader::uniform_mat4f(&self, name, val)`.  Here `CString::new(name).unwrap()`
panics when `name` contains an interior NUL byte — modelled as `none`;
otherwise the location is looked up, a warning is logged when it is negative,
and the matrix is uploaded to that location unconditionally. -/
def Shader.uniform_mat4f (s : Shader) (ctx : GLCtx) (name : String) (val : Mat4)
    (st : GLState) : Option GLState :=
  if name.toList.contains (Char.ofNat 0) then
    none
  else
    let (uni_loc, st) := glGetUniformLocation ctx s.program name st
    let st :=
      if uni_loc < 0 then logWarn ("uniform_mat4f " ++ name ++ " was not found") st
      else st
    let st := glUniformMatrix4fv uni_loc val st
    some st

/-- Embeds `Shader::id(&self)`. -/
def Shader.id (s : Shader) : Nat := s.program

/-- Embeds `Shader::bind(&self)`. -/
def Shader.bind (s : Shader) (st : GLState) : GLState :=
  glUseProgram s.program st

/-- Embeds `Shader::unbind(&self)` — note it uses program 0, independent of `self`. -/
def Shader.unbind (_s : Shader) (st : GLState) : GLState :=
  glUseProgram 0 st

/-- Embeds `impl Drop for Shader`, which calls `gl::DeleteProgram(self.program)`. -/
def Shader.drop (s : Shader) (st : GLState) : GLState :=
  glDeleteProgram s.program st

/-! ### A client's use of a live `Shader`

Between creation and scope exit a caller can only invoke the four `&self`
methods.  `runOp`/`runOps` model an arbitrary such call sequence; the `Bool`
component is `true` when a call panicked (the `CString::new(..).unwrap()` in
`uniform_mat4f`), which in Rust starts unwinding: no further user calls run,
but `Drop` still does.  `scopeEnd` is the whole lifetime after creation:
the calls, then the `Drop` at scope exit (normal or unwinding). -/

/-- One `&self` call a client can make on a live `Shader`. -/
inductive Op where
  | useBind : Op
  | useUnbind : Op
  | useUniform (name : String) (val : Mat4) : Op
  | useId : Op
deriving DecidableEq

/-- Run one call.  The `Shader` component is returned unchanged: every
method takes `&self`, so the borrow checker rules out mutation of the
object. -/
def runOp (ctx : GLCtx) (op : Op) (s : Shader) (st : GLState) :
    (Shader × GLState) × Bool :=
  match op with
  | .useBind => ((s, s.bind st), false)
  | .useUnbind => ((s, s.unbind st), false)
  | .useUniform name val =>
    match s.uniform_mat4f ctx name val st with
    | some st' => ((s, st'), false)
    | none => ((s, st), true)
  | .useId => ((s, st), false)

/-- Run a call sequence, stopping early if a call panicked. -/
def runOps (ctx : GLCtx) (ops : List Op) (s : Shader) (st : GLState) :
    (Shader × GLState) × Bool :=
  match ops with
  | [] => ((s, st), false)
  | op :: rest =>
    match runOp ctx op s st with
    | ((s', st'), false) => runOps ctx rest s' st'
    | ((s', st'), true) => ((s', st'), true)

/-- A full post-creation lifetime: the client's calls, then the `Drop` that
runs when the owning value goes out of scope — on the normal path or during
unwinding alike. -/
def scopeEnd (ctx : GLCtx) (ops : List Op) (s : Shader) (st : GLState) : GLState :=
  Shader.drop (runOps ctx ops s st).1.1 (runOps ctx ops s st).1.2

/-- Number of `glDeleteProgram h` calls in a trace. -/
def countDeleteProgram (h : Nat) (tr : List GLCall) : Nat :=
  tr.countP (fun c => decide (c = GLCall.deleteProgram h))

/-! ### Helper lemmas -/

lemma countDeleteProgram_append (h : Nat) (t1 t2 : List GLCall) :
    countDeleteProgram h (t1 ++ t2) =
      countDeleteProgram h t1 + countDeleteProgram h t2 := by
  simp [countDeleteProgram, List.countP_append]

lemma uniform_mat4f_eq_some (s : Shader) (ctx : GLCtx) (name : String) (val : Mat4)
    (st st' : GLState) (hu : s.uniform_mat4f ctx name val st = some st') :
    st'.trace = st.trace ++
      [GLCall.getUniformLocation s.program name (ctx.uniformLoc s.program name),
       GLCall.uniformMatrix4fv (ctx.uniformLoc s.program name) 1 false val] ∧
    st'.nextId = st.nextId ∧ st'.errors = st.errors := by
  unfold Shader.uniform_mat4f at hu
  by_cases hnul : name.toList.contains (Char.ofNat 0) = true
  · rw [if_pos hnul] at hu; exact absurd hu (by simp)
  · rw [if_neg hnul] at hu
    injection hu with hu
    subst hu
    refine ⟨?_, ?_, ?_⟩ <;>
      simp [glGetUniformLocation, glUniformMatrix4fv, record, logWarn,
        apply_ite GLState.trace, apply_ite GLState.nextId, apply_ite GLState.errors,
        List.append_assoc]

lemma runOp_shader (ctx : GLCtx) (op : Op) (s : Shader) (st : GLState) :
    (runOp ctx op s st).1.1 = s := by
  cases op with
  | useBind => rfl
  | useUnbind => rfl
  | useId => rfl
  | useUniform name val =>
    unfold runOp
    rcases hu : s.uniform_mat4f ctx name val st with _ | st' <;> simp [hu]

lemma runOps_shader (ctx : GLCtx) (ops : List Op) (s : Shader) (st : GLState) :
    (runOps ctx ops s st).1.1 = s := by
  induction ops generalizing s st with
  | nil => rfl
  | cons op rest ih =>
    unfold runOps
    have hs := runOp_shader ctx op s st
    rcases hr : runOp ctx op s st with ⟨⟨s', st'⟩, b⟩
    rw [hr] at hs
    cases b with
    | false => simpa using (hs ▸ ih s' st')
    | true => simpa using hs

lemma runOp_count (ctx : GLCtx) (op : Op) (s : Shader) (st : GLState) (h : Nat) :
    countDeleteProgram h (runOp ctx op s st).1.2.trace =
      countDeleteProgram h st.trace := by
  cases op with
  | useBind =>
    simp [runOp, Shader.bind, glUseProgram, record, countDeleteProgram,
      List.countP_append]
  | useUnbind =>
    simp [runOp, Shader.unbind, glUseProgram, record, countDeleteProgram,
      List.countP_append]
  | useId => rfl
  | useUniform name val =>
    unfold runOp
    rcases hu : s.uniform_mat4f ctx name val st with _ | st'
    · simp [hu]
    · have ht := (uniform_mat4f_eq_some s ctx name val st st' hu).1
      simp [hu, ht, countDeleteProgram, List.countP_append]

lemma runOps_count (ctx : GLCtx) (ops : List Op) (s : Shader) (st : GLState) (h : Nat) :
    countDeleteProgram h (runOps ctx ops s st).1.2.trace =
      countDeleteProgram h st.trace := by
  induction ops generalizing s st with
  | nil => rfl
  | cons op rest ih =>
    unfold runOps
    have hc := runOp_count ctx op s st h
    rcases hr : runOp ctx op s st with ⟨⟨s', st'⟩, b⟩
    rw [hr] at hc
    cases b with
    | false => simpa using (ih s' st').trans hc
    | true => simpa using hc

/-! ### Claim theorems -/

/-- C6: `bind()` issues exactly one `gl::UseProgram` call with this shader's
own program handle, `unbind()` issues exactly one `gl::UseProgram(0)` call;
each only appends that call to the trace and depends on no other state. -/
theorem bind_unbind_use_own_program (s : Shader) (st : GLState) :
    Shader.bind s st = { st with trace := st.trace ++ [GLCall.useProgram s.program] } ∧
    Shader.unbind s st = { st with trace := st.trace ++ [GLCall.useProgram 0] } :=
  ⟨rfl, rfl⟩

/-- C7: no `&self` operation mutates the object: across any sequence of
`bind`/`unbind`/`uniform_mat4f`/`id` calls the `Shader` value — in particular
its stored `program` field and hence `id()` — is unchanged. -/
theorem ops_never_mutate_shader (ctx : GLCtx) (ops : List Op) (s : Shader) (st : GLState) :
    (runOps ctx ops s st).1.1 = s ∧
    Shader.id (runOps ctx ops s st).1.1 = Shader.id s ∧
    (runOps ctx ops s st).1.1.program = s.program := by
  have hs := runOps_shader ctx ops s st
  exact ⟨hs, by rw [hs], by rw [hs]⟩

/-- C4: over a full post-creation lifetime — any sequence of `&self` calls,
ending normally or by a panic unwind, followed by the `Drop` at scope exit —
the native `gl::DeleteProgram` is called on the shader's own handle exactly
once more than before, and on no other handle. -/
theorem drop_releases_handle_exactly_once (ctx : GLCtx) (ops : List Op)
    (s : Shader) (st : GLState) (h : Nat) :
    countDeleteProgram h (scopeEnd ctx ops s st).trace =
      countDeleteProgram h st.trace + (if h = s.program then 1 else 0) := by
  unfold scopeEnd
  rw [runOps_shader ctx ops s st]
  unfold Shader.drop glDeleteProgram record
  rw [countDeleteProgram_append, runOps_count]
  by_cases hh : h = s.program
  · subst hh; simp [countDeleteProgram]
  · simp [countDeleteProgram, List.countP_cons, hh, Ne.symm hh]

/-! ### Concrete driver models used in witnesses and counterexamples -/

/-- A driver in which no uniform name is found (`glGetUniformLocation`
always answers `-1`) and nothing compiles. -/
def ctxAbsent : GLCtx :=
  { compiles := fun _ => false, infoLog := fun _ => "",
    uniformLoc := fun _ _ => -1 }

/-- A driver in which every uniform lookup answers location `5` and every
source compiles. -/
def ctxFound5 : GLCtx :=
  { compiles := fun _ => true, infoLog := fun _ => "",
    uniformLoc := fun _ _ => 5 }

/-- A driver in which every source compiles. -/
def ctxAll : GLCtx :=
  { compiles := fun _ => true, infoLog := fun _ => "",
    uniformLoc := fun _ _ => 0 }

/-- A name consisting of a single NUL character: `CString::new` rejects it,
so the `.unwrap()` in `uniform_mat4f` panics. -/
def nulName : String := String.mk [Char.ofNat 0]

/-- An arbitrary matrix value. -/
def m0 : Mat4 := ⟨[]⟩

/-- C2 counterexample: the name consisting of one NUL byte is absent from the
program (the lookup model answers `-1` for every name), yet
`uniform_mat4f` crashes on it — `CString::new(name).unwrap()` panics
(modelled by `none`) — instead of logging a warning and carrying on. -/
theorem uniform_absent_nul_name_crashes :
    ctxAbsent.uniformLoc 1 nulName = -1 ∧
    Shader.uniform_mat4f ⟨1⟩ ctxAbsent nulName m0 st0 = none :=
  ⟨rfl, rfl⟩

/-- C2 (amended): for every name free of interior NUL bytes that is absent
from the program (the lookup answers `-1`), `uniform_mat4f` logs a warning
and does not crash (it returns normally), for every matrix value. -/
theorem uniform_absent_name_warns_no_crash (s : Shader) (ctx : GLCtx)
    (name : String) (val : Mat4) (st : GLState)
    (hnul : name.toList.contains (Char.ofNat 0) = false)
    (habs : ctx.uniformLoc s.program name = -1) :
    ∃ st', Shader.uniform_mat4f s ctx name val st = some st' ∧
      st'.warnings = st.warnings ++ [("uniform_mat4f " ++ name ++ " was not found")] := by
  unfold Shader.uniform_mat4f
  rw [if_neg (by simpa using hnul)]
  refine ⟨_, rfl, ?_⟩
  simp [glGetUniformLocation, glUniformMatrix4fv, record, logWarn, habs]

/-- Witness for the amended C2 at a concrete input. -/
theorem uniform_absent_name_warns_no_crash_witness :
    (("iMVP").toList.contains (Char.ofNat 0) = false ∧
      ctxAbsent.uniformLoc 1 ("iMVP") = -1) ∧
    (∃ st', Shader.uniform_mat4f ⟨1⟩ ctxAbsent ("iMVP") m0 st0 = some st' ∧
      st'.warnings = st0.warnings ++ [("uniform_mat4f " ++ ("iMVP") ++ " was not found")]) :=
  ⟨⟨by decide, rfl⟩,
   uniform_absent_name_warns_no_crash ⟨1⟩ ctxAbsent ("iMVP") m0 st0 (by decide) rfl⟩

/-- C3 counterexample: at the name consisting of one NUL byte (with any
matrix, here in a driver that would answer location `5`), `uniform_mat4f`
performs no lookup and no upload at all: it panics in
`CString::new(name).unwrap()` (modelled by `none`) before any native call. -/
theorem uniform_nul_name_no_lookup :
    Shader.uniform_mat4f ⟨1⟩ ctxFound5 nulName m0 st0 = none := rfl

/-- C3 (amended): for every name free of interior NUL bytes and every matrix
value, `uniform_mat4f` looks the name up, then uploads the matrix to the
returned location unconditionally (no early return); when the lookup answers
`-1` (not found) a warning is logged and the upload still happens at `-1`;
when the location is non-negative no warning is logged. -/
theorem uniform_lookup_then_upload (s : Shader) (ctx : GLCtx) (name : String)
    (val : Mat4) (st : GLState)
    (hnul : name.toList.contains (Char.ofNat 0) = false) :
    ∃ st', Shader.uniform_mat4f s ctx name val st = some st' ∧
      st'.trace = st.trace ++
        [GLCall.getUniformLocation s.program name (ctx.uniformLoc s.program name),
         GLCall.uniformMatrix4fv (ctx.uniformLoc s.program name) 1 false val] ∧
      (ctx.uniformLoc s.program name = -1 →
        st'.warnings = st.warnings ++ [("uniform_mat4f " ++ name ++ " was not found")]) ∧
      (0 ≤ ctx.uniformLoc s.program name → st'.warnings = st.warnings) := by
  unfold Shader.uniform_mat4f
  rw [if_neg (by simpa using hnul)]
  refine ⟨_, rfl, ?_, ?_, ?_⟩
  · simp [glGetUniformLocation, glUniformMatrix4fv, record, logWarn,
      apply_ite GLState.trace, List.append_assoc]
  · intro habs
    simp [glGetUniformLocation, glUniformMatrix4fv, record, logWarn, habs]
  · intro hpos
    rw [if_neg (not_lt.mpr hpos)]
    simp [glGetUniformLocation, glUniformMatrix4fv, record]

/-! ### Closed forms of the paths through `Shader::new`

`Shader::new` allocates `program = st.nextId`, `vert_shader = st.nextId + 1`
and `frag_shader = st.nextId + 2` and then takes one of three paths: both
stages compile; the vertex stage fails; the vertex stage compiles and the
fragment stage fails.  The following definitions capture the state at the
end of the straight-line portion of each path, and the lemmas give the run
of `Shader.new` in closed form. -/

/-- State after a run of `Shader::new` in which both stages compiled. -/
def newSuccessState (ctx : GLCtx) (frag vert : String) (st : GLState) : GLState :=
  let (program, st) := glCreateProgram st
  let (vert_shader, st) := glCreateShader GL_VERTEX_SHADER st
  let (frag_shader, st) := glCreateShader GL_FRAGMENT_SHADER st
  let st := glShaderSource vert_shader vert st
  let st := glShaderSource frag_shader frag st
  let st := glCompileShader ctx vert_shader st
  let (_, st) := glGetShaderiv ctx vert_shader GL_COMPILE_STATUS st
  let st := glCompileShader ctx frag_shader st
  let (_, st) := glGetShaderiv ctx frag_shader GL_COMPILE_STATUS st
  let st := glAttachShader program vert_shader st
  let st := glAttachShader program frag_shader st
  let st := glLinkProgram program st
  let st := glDeleteShader vert_shader st
  let st := glDeleteShader frag_shader st
  st

/-- State just before the recursive `Shader::new` call when the vertex stage
failed to compile (the failing shader object has been logged and deleted). -/
def vertFailState (ctx : GLCtx) (frag vert : String) (st : GLState) : GLState :=
  let (_program, st) := glCreateProgram st
  let (vert_shader, st) := glCreateShader GL_VERTEX_SHADER st
  let (frag_shader, st) := glCreateShader GL_FRAGMENT_SHADER st
  let st := glShaderSource vert_shader vert st
  let st := glShaderSource frag_shader frag st
  let st := glCompileShader ctx vert_shader st
  let (_, st) := glGetShaderiv ctx vert_shader GL_COMPILE_STATUS st
  let (max_len, st) := glGetShaderiv ctx vert_shader GL_INFO_LOG_LENGTH st
  let (error_log, st) := glGetShaderInfoLog ctx vert_shader max_len st
  let st := logError ("Failed to compile " ++ ("vert") ++ " shader " ++ error_log) st
  let st := glDeleteShader vert_shader st
  st

/-- State just before the recursive `Shader::new` call when the vertex stage
compiled and the fragment stage failed. -/
def fragFailState (ctx : GLCtx) (frag vert : String) (st : GLState) : GLState :=
  let (_program, st) := glCreateProgram st
  let (vert_shader, st) := glCreateShader GL_VERTEX_SHADER st
  let (frag_shader, st) := glCreateShader GL_FRAGMENT_SHADER st
  let st := glShaderSource vert_shader vert st
  let st := glShaderSource frag_shader frag st
  let st := glCompileShader ctx vert_shader st
  let (_, st) := glGetShaderiv ctx vert_shader GL_COMPILE_STATUS st
  let st := glCompileShader ctx frag_shader st
  let (_, st) := glGetShaderiv ctx frag_shader GL_COMPILE_STATUS st
  let (max_len, st) := glGetShaderiv ctx frag_shader GL_INFO_LOG_LENGTH st
  let (error_log, st) := glGetShaderInfoLog ctx frag_shader max_len st
  let st := logError ("Failed to compile " ++ ("frag") ++ " shader " ++ error_log) st
  let st := glDeleteShader frag_shader st
  st

/-- Precondition under which the fallback "error" shader itself builds: the
driver compiles both hardcoded fallback sources. -/
def fallbackCompiles (ctx : GLCtx) : Prop :=
  ctx.compiles SHADER_ERR_SRC_VERT = true ∧ ctx.compiles SHADER_ERR_SRC_FRAG = true

lemma new_success (ctx : GLCtx) {frag vert : String}
    (hv : ctx.compiles vert = true) (hf : ctx.compiles frag = true) :
    ∀ (m : Nat) (st : GLState),
      Shader.new (m + 1) ctx frag vert st =
        some (newSuccessState ctx frag vert st, some ⟨st.nextId⟩) := by
  intro m st
  simp [Shader.new, Shader.check_compilation, newSuccessState, glCreateProgram,
    glCreateShader, glShaderSource, glCompileShader, glGetShaderiv,
    glGetShaderInfoLog, glAttachShader, glLinkProgram, glDeleteShader,
    glDeleteProgram, record, logError, hv, hf, List.append_assoc]

lemma new_vert_fail (ctx : GLCtx) {frag vert : String}
    (hfv : ctx.compiles SHADER_ERR_SRC_VERT = true)
    (hff : ctx.compiles SHADER_ERR_SRC_FRAG = true)
    (hv : ctx.compiles vert = false) :
    ∀ (m : Nat) (st : GLState),
      Shader.new (m + 2) ctx frag vert st =
        some (glDeleteProgram st.nextId
                (newSuccessState ctx SHADER_ERR_SRC_FRAG SHADER_ERR_SRC_VERT
                  (vertFailState ctx frag vert st)),
              some ⟨(vertFailState ctx frag vert st).nextId⟩) := by
  intro m st
  rw [show m + 2 = (m + 1) + 1 from rfl]
  simp only [Shader.new, Shader.check_compilation]
  simp [vertFailState, glCreateProgram, glCreateShader, glShaderSource,
    glCompileShader, glGetShaderiv, glGetShaderInfoLog, glDeleteShader,
    glDeleteProgram, record, logError, hv, hfv, hff, newSuccessState,
    glAttachShader, glLinkProgram, List.append_assoc]

lemma new_frag_fail (ctx : GLCtx) {frag vert : String}
    (hfv : ctx.compiles SHADER_ERR_SRC_VERT = true)
    (hff : ctx.compiles SHADER_ERR_SRC_FRAG = true)
    (hv : ctx.compiles vert = true) (hf : ctx.compiles frag = false) :
    ∀ (m : Nat) (st : GLState),
      Shader.new (m + 2) ctx frag vert st =
        some (glDeleteProgram st.nextId
                (newSuccessState ctx SHADER_ERR_SRC_FRAG SHADER_ERR_SRC_VERT
                  (fragFailState ctx frag vert st)),
              some ⟨(fragFailState ctx frag vert st).nextId⟩) := by
  intro m st
  rw [show m + 2 = (m + 1) + 1 from rfl]
  simp only [Shader.new, Shader.check_compilation]
  simp [fragFailState, glCreateProgram, glCreateShader, glShaderSource,
    glCompileShader, glGetShaderiv, glGetShaderInfoLog, glDeleteShader,
    glDeleteProgram, record, logError, hv, hf, hfv, hff, newSuccessState,
    glAttachShader, glLinkProgram, List.append_assoc]

lemma new_err_src_diverges (ctx : GLCtx)
    (hnot : ¬ fallbackCompiles ctx) :
    ∀ (fuel : Nat) (st : GLState),
      Shader.new fuel ctx SHADER_ERR_SRC_FRAG SHADER_ERR_SRC_VERT st = none := by
  intro fuel
  induction fuel with
  | zero => intro st; rfl
  | succ m ih =>
    intro st
    cases hv : ctx.compiles SHADER_ERR_SRC_VERT with
    | false =>
      simp [Shader.new, Shader.check_compilation, glCreateProgram,
        glCreateShader, glShaderSource, glCompileShader, glGetShaderiv,
        glGetShaderInfoLog, glDeleteShader, record, logError, hv, ih]
    | true =>
      have hf : ctx.compiles SHADER_ERR_SRC_FRAG = false := by
        cases hcf : ctx.compiles SHADER_ERR_SRC_FRAG
        · rfl
        · exact absurd ⟨hv, hcf⟩ hnot
      simp [Shader.new, Shader.check_compilation, glCreateProgram,
        glCreateShader, glShaderSource, glCompileShader, glGetShaderiv,
        glGetShaderInfoLog, glDeleteShader, record, logError, hv, hf, ih]

lemma newSuccessState_errors (ctx : GLCtx) (frag vert : String) (st : GLState) :
    (newSuccessState ctx frag vert st).errors = st.errors := by
  simp [newSuccessState, glCreateProgram, glCreateShader, glShaderSource,
    glCompileShader, glGetShaderiv, glAttachShader, glLinkProgram,
    glDeleteShader, record]

lemma vertFailState_errors_length (ctx : GLCtx) (frag vert : String) (st : GLState) :
    (vertFailState ctx frag vert st).errors.length = st.errors.length + 1 := by
  simp [vertFailState, glCreateProgram, glCreateShader, glShaderSource,
    glCompileShader, glGetShaderiv, glGetShaderInfoLog, glDeleteShader,
    record, logError]

lemma fragFailState_errors_length (ctx : GLCtx) (frag vert : String) (st : GLState) :
    (fragFailState ctx frag vert st).errors.length = st.errors.length + 1 := by
  simp [fragFailState, glCreateProgram, glCreateShader, glShaderSource,
    glCompileShader, glGetShaderiv, glGetShaderInfoLog, glDeleteShader,
    record, logError]

/-- A driver that compiles every source except the marker source "bad". -/
def ctxBad : GLCtx :=
  { compiles := fun s => !(s == ("bad")),
    infoLog := fun _ => ("no such identifier"),
    uniformLoc := fun _ _ => -1 }

/-- State of a failing run of `Shader::new` just before its recursive
fallback call: the program and shader objects have been created, the failing
stage's error has been logged and the failing shader object deleted.  Which
of the two failure paths was taken is decided by the driver (the vertex
stage is checked first, so its failure shadows the fragment stage). -/
def failMidState (ctx : GLCtx) (frag vert : String) (st : GLState) : GLState :=
  if ctx.compiles vert then fragFailState ctx frag vert st
  else vertFailState ctx frag vert st

/-- C1: if either stage fails to compile (and the hardcoded fallback sources
themselves compile, as on any conforming driver), `Shader::new` logs exactly
one error and returns — as a normal `Some` value, never a hard error — the
very shader built by the recursive `Shader::new` run on the hardcoded
fallback sources `SHADER_ERR_SRC_FRAG` / `SHADER_ERR_SRC_VERT`, launched
from this run's own post-failure state `failMidState`: the failing run's
result is, as an exact equation, that fallback run's result with only the
failed program handle's deletion appended. -/
theorem new_substitutes_fallback_on_compile_failure (ctx : GLCtx)
    (frag vert : String) (st : GLState) (m : Nat)
    (hfb : fallbackCompiles ctx)
    (hfail : ctx.compiles vert = false ∨ ctx.compiles frag = false) :
    Shader.new (m + 2) ctx frag vert st =
      some (glDeleteProgram st.nextId
              (newSuccessState ctx SHADER_ERR_SRC_FRAG SHADER_ERR_SRC_VERT
                (failMidState ctx frag vert st)),
            some ⟨(failMidState ctx frag vert st).nextId⟩) ∧
    (glDeleteProgram st.nextId
        (newSuccessState ctx SHADER_ERR_SRC_FRAG SHADER_ERR_SRC_VERT
          (failMidState ctx frag vert st))).errors.length =
      st.errors.length + 1 ∧
    Shader.new (m + 1) ctx SHADER_ERR_SRC_FRAG SHADER_ERR_SRC_VERT
        (failMidState ctx frag vert st) =
      some (newSuccessState ctx SHADER_ERR_SRC_FRAG SHADER_ERR_SRC_VERT
              (failMidState ctx frag vert st),
            some ⟨(failMidState ctx frag vert st).nextId⟩) := by
  obtain ⟨hfv, hff⟩ := hfb
  cases hv : ctx.compiles vert with
  | false =>
    have hmid : failMidState ctx frag vert st = vertFailState ctx frag vert st := by
      simp [failMidState, hv]
    rw [hmid]
    refine ⟨new_vert_fail ctx hfv hff hv m st, ?_,
      new_success ctx hfv hff m (vertFailState ctx frag vert st)⟩
    simp [glDeleteProgram, record, newSuccessState_errors, vertFailState_errors_length]
  | true =>
    have hf : ctx.compiles frag = false := by
      rcases hfail with h | h
      · rw [hv] at h; exact absurd h (by simp)
      · exact h
    have hmid : failMidState ctx frag vert st = fragFailState ctx frag vert st := by
      simp [failMidState, hv]
    rw [hmid]
    refine ⟨new_frag_fail ctx hfv hff hv hf m st, ?_,
      new_success ctx hfv hff m (fragFailState ctx frag vert st)⟩
    simp [glDeleteProgram, record, newSuccessState_errors, fragFailState_errors_length]

/-- Witness for C1 at a concrete input: the vertex source "bad" fails on the
driver `ctxBad`, everything else compiles. -/
theorem new_substitutes_fallback_witness :
    (fallbackCompiles ctxBad ∧
      (ctxBad.compiles ("bad") = false ∨ ctxBad.compiles ("ok") = false)) ∧
    (Shader.new 2 ctxBad ("ok") ("bad") st0 =
        some (glDeleteProgram st0.nextId
                (newSuccessState ctxBad SHADER_ERR_SRC_FRAG SHADER_ERR_SRC_VERT
                  (failMidState ctxBad ("ok") ("bad") st0)),
              some ⟨(failMidState ctxBad ("ok") ("bad") st0).nextId⟩) ∧
      (glDeleteProgram st0.nextId
          (newSuccessState ctxBad SHADER_ERR_SRC_FRAG SHADER_ERR_SRC_VERT
            (failMidState ctxBad ("ok") ("bad") st0))).errors.length =
        st0.errors.length + 1 ∧
      Shader.new 1 ctxBad SHADER_ERR_SRC_FRAG SHADER_ERR_SRC_VERT
          (failMidState ctxBad ("ok") ("bad") st0) =
        some (newSuccessState ctxBad SHADER_ERR_SRC_FRAG SHADER_ERR_SRC_VERT
                (failMidState ctxBad ("ok") ("bad") st0),
              some ⟨(failMidState ctxBad ("ok") ("bad") st0).nextId⟩)) :=
  ⟨⟨⟨by decide, by decide⟩, Or.inl (by decide)⟩,
   new_substitutes_fallback_on_compile_failure ctxBad ("ok") ("bad") st0 0
     ⟨by decide, by decide⟩ (Or.inl (by decide))⟩

/-- C5: when both stages compile, `Shader::new` returns `Some` shader whose
`id()` is exactly the handle issued by the `gl::CreateProgram` call of this
run, and that id is non-zero whenever the context issued a non-zero
handle. -/
theorem new_valid_sources_id (ctx : GLCtx) (frag vert : String) (st : GLState)
    (m : Nat) (hv : ctx.compiles vert = true) (hf : ctx.compiles frag = true) :
    ∃ st' s, Shader.new (m + 1) ctx frag vert st = some (st', some s) ∧
      Shader.id s = st.nextId ∧
      GLCall.createProgram st.nextId ∈ st'.trace ∧
      (st.nextId ≠ 0 → Shader.id s ≠ 0) := by
  refine ⟨_, _, new_success ctx hv hf m st, rfl, ?_, fun h => h⟩
  simp [newSuccessState, glCreateProgram, glCreateShader, glShaderSource,
    glCompileShader, glGetShaderiv, glAttachShader, glLinkProgram,
    glDeleteShader, record]

/-- Witness for C5 at a concrete input. -/
theorem new_valid_sources_id_witness :
    (ctxAll.compiles ("v") = true ∧ ctxAll.compiles ("f") = true) ∧
    (∃ st' s, Shader.new 1 ctxAll ("f") ("v") st0 = some (st', some s) ∧
      Shader.id s = st0.nextId ∧
      GLCall.createProgram st0.nextId ∈ st'.trace ∧
      (st0.nextId ≠ 0 → Shader.id s ≠ 0)) :=
  ⟨⟨rfl, rfl⟩, new_valid_sources_id ctxAll ("f") ("v") st0 0 rfl rfl⟩

/-- C8: on every terminating execution, `Shader::new` returns `Some`: the
`Option` in its return type carries no information.  (Outer `none` in the
model is fuel exhaustion, i.e. a run that is still recursing, not a `None`
returned by the Rust function.) -/
theorem new_never_returns_none (fuel : Nat) (ctx : GLCtx) (frag vert : String)
    (st st' : GLState) (r : Option Shader)
    (h : Shader.new fuel ctx frag vert st = some (st', r)) :
    ∃ s, r = some s := by
  cases fuel with
  | zero => exact absurd h (by simp [Shader.new])
  | succ m =>
    simp only [Shader.new] at h
    split at h
    · exact absurd h (by simp)
    · simp only [Option.some.injEq, Prod.mk.injEq] at h
      exact ⟨_, h.2.symm⟩
    · split at h
      · exact absurd h (by simp)
      · simp only [Option.some.injEq, Prod.mk.injEq] at h
        exact ⟨_, h.2.symm⟩
      · simp only [Option.some.injEq, Prod.mk.injEq] at h
        exact ⟨_, h.2.symm⟩

/-- Witness for C8 at a concrete terminating input. -/
theorem new_never_returns_none_witness :
    ∃ st' r, Shader.new 1 ctxAll ("f") ("v") st0 = some (st', r) ∧ ∃ s, r = some s :=
  ⟨_, _, new_success ctxAll rfl rfl 0 st0,
   new_never_returns_none 1 ctxAll ("f") ("v") st0 _ _ (new_success ctxAll rfl rfl 0 st0)⟩

/-- C9: `Shader::new` is recursive through `check_compilation`.  When the
hardcoded fallback sources compile, every run terminates with recursion
depth at most one: fuel 2 suffices and the result does not depend on any
larger fuel.  When they do not, the run on the fallback sources themselves
never terminates: it returns fuel exhaustion at every fuel. -/
theorem new_terminates_iff_fallback_compiles (ctx : GLCtx) :
    (fallbackCompiles ctx →
      ∀ (frag vert : String) (st : GLState), ∃ out,
        ∀ fuel, 2 ≤ fuel → Shader.new fuel ctx frag vert st = some out) ∧
    (¬ fallbackCompiles ctx →
      ∀ (fuel : Nat) (st : GLState),
        Shader.new fuel ctx SHADER_ERR_SRC_FRAG SHADER_ERR_SRC_VERT st = none) := by
  constructor
  · rintro ⟨hfv, hff⟩ frag vert st
    cases hv : ctx.compiles vert with
    | true =>
      cases hf : ctx.compiles frag with
      | true =>
        refine ⟨(newSuccessState ctx frag vert st, some ⟨st.nextId⟩), ?_⟩
        intro fuel h2
        obtain ⟨k, rfl⟩ : ∃ k, fuel = k + 1 := ⟨fuel - 1, by omega⟩
        exact new_success ctx hv hf k st
      | false =>
        refine ⟨(glDeleteProgram st.nextId
            (newSuccessState ctx SHADER_ERR_SRC_FRAG SHADER_ERR_SRC_VERT
              (fragFailState ctx frag vert st)),
          some ⟨(fragFailState ctx frag vert st).nextId⟩), ?_⟩
        intro fuel h2
        obtain ⟨k, rfl⟩ : ∃ k, fuel = k + 2 := ⟨fuel - 2, by omega⟩
        exact new_frag_fail ctx hfv hff hv hf k st
    | false =>
      refine ⟨(glDeleteProgram st.nextId
          (newSuccessState ctx SHADER_ERR_SRC_FRAG SHADER_ERR_SRC_VERT
            (vertFailState ctx frag vert st)),
        some ⟨(vertFailState ctx frag vert st).nextId⟩), ?_⟩
      intro fuel h2
      obtain ⟨k, rfl⟩ : ∃ k, fuel = k + 2 := ⟨fuel - 2, by omega⟩
      exact new_vert_fail ctx hfv hff hv k st
  · exact new_err_src_diverges ctx

/-- Witness for C9 (terminating side) at a concrete driver. -/
theorem new_terminates_iff_fallback_compiles_witness :
    fallbackCompiles ctxAll ∧
    (∃ out, ∀ fuel, 2 ≤ fuel → Shader.new fuel ctxAll ("f") ("v") st0 = some out) :=
  ⟨⟨rfl, rfl⟩,
   (new_terminates_iff_fallback_compiles ctxAll).1 ⟨rfl, rfl⟩ ("f") ("v") st0⟩

/-- C10: on every compile-failure path (fallback sources compiling), the
program handle `st.nextId` allocated by this run's initial
`gl::CreateProgram` is passed to `gl::DeleteProgram` before the fallback
shader is returned: the abandoned handle is not leaked. -/
theorem failed_program_handle_deleted (ctx : GLCtx) (frag vert : String)
    (st : GLState) (m : Nat) (hfb : fallbackCompiles ctx)
    (hfail : ctx.compiles vert = false ∨ ctx.compiles frag = false) :
    ∃ st' s, Shader.new (m + 2) ctx frag vert st = some (st', some s) ∧
      GLCall.deleteProgram st.nextId ∈ st'.trace := by
  obtain ⟨hfv, hff⟩ := hfb
  cases hv : ctx.compiles vert with
  | false =>
    refine ⟨_, _, new_vert_fail ctx hfv hff hv m st, ?_⟩
    simp [glDeleteProgram, record]
  | true =>
    have hf : ctx.compiles frag = false := by
      rcases hfail with h | h
      · rw [hv] at h; exact absurd h (by simp)
      · exact h
    refine ⟨_, _, new_frag_fail ctx hfv hff hv hf m st, ?_⟩
    simp [glDeleteProgram, record]

/-- Witness for C10 at a concrete input: the fragment source "bad" fails. -/
theorem failed_program_handle_deleted_witness :
    (fallbackCompiles ctxBad ∧
      (ctxBad.compiles ("ok") = false ∨ ctxBad.compiles ("bad") = false)) ∧
    (∃ st' s, Shader.new 2 ctxBad ("bad") ("ok") st0 = some (st', some s) ∧
      GLCall.deleteProgram st0.nextId ∈ st'.trace) :=
  ⟨⟨⟨by decide, by decide⟩, Or.inr (by decide)⟩,
   failed_program_handle_deleted ctxBad ("bad") ("ok") st0 0 ⟨by decide, by decide⟩
     (Or.inr (by decide))⟩

/-- Witness for the amended C3 at a concrete input (location found at `5`:
upload goes to `5`, no warning). -/
theorem uniform_lookup_then_upload_witness :
    (("iMVP").toList.contains (Char.ofNat 0) = false) ∧
    (∃ st', Shader.uniform_mat4f ⟨1⟩ ctxFound5 ("iMVP") m0 st0 = some st' ∧
      st'.trace = st0.trace ++
        [GLCall.getUniformLocation 1 ("iMVP") (ctxFound5.uniformLoc 1 ("iMVP")),
         GLCall.uniformMatrix4fv (ctxFound5.uniformLoc 1 ("iMVP")) 1 false m0] ∧
      (ctxFound5.uniformLoc 1 ("iMVP") = -1 →
        st'.warnings = st0.warnings ++ [("uniform_mat4f " ++ ("iMVP") ++ " was not found")]) ∧
      (0 ≤ ctxFound5.uniformLoc 1 ("iMVP") → st'.warnings = st0.warnings)) :=
  ⟨by decide, uniform_lookup_then_upload ⟨1⟩ ctxFound5 ("iMVP") m0 st0 (by decide)⟩

end Pixel
